import Mathlib

/-!
Verification of the intent-routing and role-authorization core of the HR
multi-agent chatbot, shallowly embedded from
`backend/agents/supervisor_agent.py` (class `SupervisorAgent`:
`analyze_task_type`, `determine_target_agent`, `check_authorization`) and
`backend/models/state.py` (class `TaskType`).
-/

namespace HRRouting

/-- Matching of a needle against the front of a haystack, on character lists. -/
def headMatch : List Char → List Char → Bool
  | [], _ => true
  | _ :: _, [] => false
  | a :: as, b :: bs => a == b && headMatch as bs

/-- Substring occurrence on character lists: the needle occurs at the front or
in the tail. -/
def occursIn (needle : List Char) : List Char → Bool
  | [] => headMatch needle []
  | b :: bs => headMatch needle (b :: bs) || occursIn needle bs

/-- Python's substring containment test `needle in haystack` on strings. -/
def pyIn (needle haystack : String) : Bool :=
  occursIn needle.data haystack.data

/-- Python's `str.lower()` (ASCII), computed character by character so that it
reduces inside the kernel. -/
def strLower (s : String) : String :=
  String.mk (s.data.map Char.toLower)

/-- Python's `str.upper()` (ASCII), computed character by character so that it
reduces inside the kernel. -/
def strUpper (s : String) : String :=
  String.mk (s.data.map Char.toUpper)

/-- Python's `any(keyword in q for keyword in kws)`. -/
def anyKeyword (kws : List String) (q : String) : Bool :=
  kws.any (fun k => pyIn k q)

/-- The closed task-type enumeration from `backend/models/state.py`
(class `TaskType`). -/
inductive TaskType
  | LEAVE_BALANCE
  | LEAVE_APPLICATION
  | LEAVE_HISTORY
  | EMPLOYEE_OVERVIEW
  | EMPLOYEE_SEARCH
  | DEPARTMENT_STATS
  | REPORTING
  | ANALYTICS
  | GENERAL_QUERY
deriving DecidableEq, Repr

/-- The string value each `TaskType` constant carries in the source. -/
def TaskType.str : TaskType → String
  | .LEAVE_BALANCE => "leave_balance"
  | .LEAVE_APPLICATION => "leave_application"
  | .LEAVE_HISTORY => "leave_history"
  | .EMPLOYEE_OVERVIEW => "employee_overview"
  | .EMPLOYEE_SEARCH => "employee_search"
  | .DEPARTMENT_STATS => "department_stats"
  | .REPORTING => "reporting"
  | .ANALYTICS => "analytics"
  | .GENERAL_QUERY => "general_query"

/-- The `user_context` dictionary passed to `analyze_task_type`; the routing
logic never reads it, so its entries are modelled as string pairs. -/
abbrev UserContext := List (String × String)

/-- `leave_keywords` from `SupervisorAgent.analyze_task_type`. -/
def leave_keywords : List String :=
  ["balance", "leave", "holiday", "vacation", "time off", "days left",
   "apply", "book", "request", "absence", "pto", "annual leave"]

/-- `employee_keywords` from `SupervisorAgent.analyze_task_type`. -/
def employee_keywords : List String :=
  ["employee", "profile", "information", "details", "find", "search",
   "contact", "who is", "staff", "person", "colleague"]

/-- `reporting_keywords` from `SupervisorAgent.analyze_task_type`. -/
def reporting_keywords : List String :=
  ["report", "overview", "statistics", "stats", "all employees",
   "department", "summary", "list", "count", "total"]

/-- `analytics_keywords` from `SupervisorAgent.analyze_task_type`. -/
def analytics_keywords : List String :=
  ["trend", "analysis", "insight", "pattern", "analytics",
   "forecast", "prediction", "compare", "most", "least"]

/-- `SupervisorAgent.analyze_task_type`: lower-case the query, then check the
Leave, Analytics, Reporting and Employee keyword families in that order,
applying each family's sub-rule; fall back to `GENERAL_QUERY`. The
`user_context` argument is accepted but never read, as in the source. -/
def analyze_task_type (user_query : String) (user_context : UserContext) : TaskType :=
  if anyKeyword leave_keywords (strLower user_query) then
    if pyIn "history" (strLower user_query) then TaskType.LEAVE_HISTORY
    else if anyKeyword ["apply", "book", "request"] (strLower user_query) then
      TaskType.LEAVE_APPLICATION
    else TaskType.LEAVE_BALANCE
  else if anyKeyword analytics_keywords (strLower user_query) then TaskType.ANALYTICS
  else if anyKeyword reporting_keywords (strLower user_query) then
    if pyIn "department" (strLower user_query) then TaskType.DEPARTMENT_STATS
    else TaskType.REPORTING
  else if anyKeyword employee_keywords (strLower user_query) then
    if pyIn "all" (strLower user_query) || pyIn "overview" (strLower user_query) then
      TaskType.EMPLOYEE_OVERVIEW
    else TaskType.EMPLOYEE_SEARCH
  else TaskType.GENERAL_QUERY

/-- `SupervisorAgent.determine_target_agent`: the fixed `routing_map` from
task type to agent name (`.get` default `"employee_agent"` is unreachable on
the closed enumeration). -/
def determine_target_agent : TaskType → String
  | TaskType.LEAVE_BALANCE => "leave_agent"
  | TaskType.LEAVE_APPLICATION => "leave_agent"
  | TaskType.LEAVE_HISTORY => "leave_agent"
  | TaskType.EMPLOYEE_OVERVIEW => "reporting_agent"
  | TaskType.EMPLOYEE_SEARCH => "employee_agent"
  | TaskType.DEPARTMENT_STATS => "reporting_agent"
  | TaskType.REPORTING => "reporting_agent"
  | TaskType.ANALYTICS => "analysis_agent"
  | TaskType.GENERAL_QUERY => "employee_agent"

/-- The apostrophe character, used in the denial message. -/
def apos : Char := Char.ofNat 39

/-- The denial message returned by `SupervisorAgent.check_authorization`. -/
def restrictedMsg : String :=
  "You don" ++ Char.toString apos ++
    "t have permission to access this information. This feature is restricted to HR personnel."

/-- `restricted_tasks` from `SupervisorAgent.check_authorization`. -/
def restricted_tasks : List TaskType :=
  [TaskType.EMPLOYEE_OVERVIEW, TaskType.DEPARTMENT_STATS,
   TaskType.REPORTING, TaskType.ANALYTICS]

/-- `SupervisorAgent.check_authorization`: uppercase `state.user_role`; `"HR"`
is always allowed; `"EMPLOYEE"` is denied on the restricted task list; any
other role falls through to the final `return True, ""`. -/
def check_authorization (user_role : String) (task_type : TaskType) : Bool × String :=
  if (strUpper user_role) = "HR" then (true, "")
  else if (strUpper user_role) = "EMPLOYEE" then
    if task_type ∈ restricted_tasks then (false, restrictedMsg)
    else (true, "")
  else (true, "")

/-- The dispatcher's composed output (spec section 3, `RoutingDecision`). -/
structure RoutingDecision where
  category : TaskType
  targetHandler : String
  authorized : Bool
  denialReason : String
deriving DecidableEq, Repr

/-- The dispatcher: classify the query, look up the handler, authorize the
role, and return the composed decision (spec section 4.3). -/
def route (query : String) (role : String) : RoutingDecision :=
  ⟨analyze_task_type query [],
   determine_target_agent (analyze_task_type query []),
   (check_authorization role (analyze_task_type query [])).1,
   (check_authorization role (analyze_task_type query [])).2⟩

/-- Claim C1: the spec requires default-deny for unrecognized roles, but
`check_authorization` falls through to `return True, ""`: the role
`"garbage-role"` uppercases to neither `"HR"` nor `"EMPLOYEE"`, yet the
restricted `REPORTING` category is allowed with an empty reason. -/
theorem C1_unknown_role_default_allows :
    check_authorization "garbage-role" TaskType.REPORTING = (true, "") ∧
    strUpper "garbage-role" ≠ "HR" ∧ strUpper "garbage-role" ≠ "EMPLOYEE" := by
  decide

/-- Claim C2 counterexample: `classify("show all employees overview")` is not
`EMPLOYEE_OVERVIEW`; the Reporting family (keywords `"overview"` and
`"all employees"`) matches before the Employee family is reached, and the
query lacks `"department"`, so the result is `REPORTING`. -/
theorem C2_overview_counterexample :
    analyze_task_type "show all employees overview" [] ≠ TaskType.EMPLOYEE_OVERVIEW ∧
    analyze_task_type "show all employees overview" [] = TaskType.REPORTING := by
  decide

/-- Claim C2 (amended): `classify("find employee John")` is `EMPLOYEE_SEARCH`;
`classify("show all employees overview")` is `REPORTING` because the Reporting
family matches first; and whenever no Leave, Analytics or Reporting keyword
occurs but an Employee keyword does, the Employee sub-rule applies: text
containing `"all"` or `"overview"` gives `EMPLOYEE_OVERVIEW`, otherwise
`EMPLOYEE_SEARCH`. -/
theorem C2_employee_family_rule :
    analyze_task_type "find employee John" [] = TaskType.EMPLOYEE_SEARCH ∧
    analyze_task_type "show all employees overview" [] = TaskType.REPORTING ∧
    (∀ (q : String) (ctx : UserContext),
      anyKeyword leave_keywords (strLower q) = false →
      anyKeyword analytics_keywords (strLower q) = false →
      anyKeyword reporting_keywords (strLower q) = false →
      anyKeyword employee_keywords (strLower q) = true →
      ((pyIn "all" (strLower q) || pyIn "overview" (strLower q)) = true →
        analyze_task_type q ctx = TaskType.EMPLOYEE_OVERVIEW) ∧
      ((pyIn "all" (strLower q) || pyIn "overview" (strLower q)) = false →
        analyze_task_type q ctx = TaskType.EMPLOYEE_SEARCH)) := by
  refine ⟨by decide, by decide, ?_⟩
  intro q ctx h1 h2 h3 h4
  constructor <;> intro h5 <;> simp [analyze_task_type, h1, h2, h3, h4, h5]

/-- Claim C2 witness: the Employee sub-rule instantiated at
`"call the staff"`, which has an Employee keyword (`"staff"`), no keyword of
the earlier families, and contains `"all"` as a substring of `"call"`. -/
theorem C2_employee_family_rule_witness :
    analyze_task_type "call the staff" [] = TaskType.EMPLOYEE_OVERVIEW :=
  (C2_employee_family_rule.2.2 "call the staff" []
    (by decide) (by decide) (by decide) (by decide)).1 (by decide)

/-- Claim C3: family evaluation is first-match in the fixed order Leave,
Analytics, Reporting, Employee on the lower-cased query; in particular a query
with both a Leave and a Reporting keyword classifies into the Leave family. -/
theorem C3_first_match_order (q : String) (ctx : UserContext) :
    (anyKeyword leave_keywords (strLower q) = true →
      (analyze_task_type q ctx = TaskType.LEAVE_HISTORY ∨
       analyze_task_type q ctx = TaskType.LEAVE_APPLICATION ∨
       analyze_task_type q ctx = TaskType.LEAVE_BALANCE)) ∧
    (anyKeyword leave_keywords (strLower q) = false →
     anyKeyword analytics_keywords (strLower q) = true →
      analyze_task_type q ctx = TaskType.ANALYTICS) ∧
    (anyKeyword leave_keywords (strLower q) = false →
     anyKeyword analytics_keywords (strLower q) = false →
     anyKeyword reporting_keywords (strLower q) = true →
      (analyze_task_type q ctx = TaskType.DEPARTMENT_STATS ∨
       analyze_task_type q ctx = TaskType.REPORTING)) ∧
    (anyKeyword leave_keywords (strLower q) = false →
     anyKeyword analytics_keywords (strLower q) = false →
     anyKeyword reporting_keywords (strLower q) = false →
     anyKeyword employee_keywords (strLower q) = true →
      (analyze_task_type q ctx = TaskType.EMPLOYEE_OVERVIEW ∨
       analyze_task_type q ctx = TaskType.EMPLOYEE_SEARCH)) ∧
    (anyKeyword leave_keywords (strLower q) = true →
     anyKeyword reporting_keywords (strLower q) = true →
      (analyze_task_type q ctx = TaskType.LEAVE_HISTORY ∨
       analyze_task_type q ctx = TaskType.LEAVE_APPLICATION ∨
       analyze_task_type q ctx = TaskType.LEAVE_BALANCE)) := by
  refine ⟨?_, ?_, ?_, ?_, ?_⟩
  · intro h1
    simp only [analyze_task_type, h1, if_true]
    split_ifs <;> simp
  · intro h1 h2
    simp [analyze_task_type, h1, h2]
  · intro h1 h2 h3
    simp only [analyze_task_type, h1, h2, h3, Bool.false_eq_true, if_false, if_true]
    split_ifs <;> simp
  · intro h1 h2 h3 h4
    simp only [analyze_task_type, h1, h2, h3, h4, Bool.false_eq_true, if_false, if_true]
    split_ifs <;> simp
  · intro h1 _
    simp only [analyze_task_type, h1, if_true]
    split_ifs <;> simp

/-- Claim C3 witness: `"my leave report"` contains the Leave keyword
`"leave"` and the Reporting keyword `"report"`, and classifies into the Leave
family. -/
theorem C3_first_match_order_witness :
    analyze_task_type "my leave report" [] = TaskType.LEAVE_HISTORY ∨
    analyze_task_type "my leave report" [] = TaskType.LEAVE_APPLICATION ∨
    analyze_task_type "my leave report" [] = TaskType.LEAVE_BALANCE :=
  (C3_first_match_order "my leave report" []).2.2.2.2 (by decide) (by decide)

/-- Claim C4: `analyze_task_type` is total and always yields one of the nine
categories; a query with no keyword from any family — the empty string
included — yields `GENERAL_QUERY`. -/
theorem C4_total_general_fallback (q : String) (ctx : UserContext) :
    (analyze_task_type q ctx = TaskType.LEAVE_BALANCE ∨
     analyze_task_type q ctx = TaskType.LEAVE_APPLICATION ∨
     analyze_task_type q ctx = TaskType.LEAVE_HISTORY ∨
     analyze_task_type q ctx = TaskType.EMPLOYEE_OVERVIEW ∨
     analyze_task_type q ctx = TaskType.EMPLOYEE_SEARCH ∨
     analyze_task_type q ctx = TaskType.DEPARTMENT_STATS ∨
     analyze_task_type q ctx = TaskType.REPORTING ∨
     analyze_task_type q ctx = TaskType.ANALYTICS ∨
     analyze_task_type q ctx = TaskType.GENERAL_QUERY) ∧
    (anyKeyword leave_keywords (strLower q) = false →
     anyKeyword analytics_keywords (strLower q) = false →
     anyKeyword reporting_keywords (strLower q) = false →
     anyKeyword employee_keywords (strLower q) = false →
      analyze_task_type q ctx = TaskType.GENERAL_QUERY) ∧
    analyze_task_type "" ctx = TaskType.GENERAL_QUERY := by
  refine ⟨?_, ?_, ?_⟩
  · cases h : analyze_task_type q ctx <;> simp
  · intro h1 h2 h3 h4
    simp [analyze_task_type, h1, h2, h3, h4]
  · rfl

/-- Claim C4 witness: `"zzz"` contains no keyword from any family and falls
back to `GENERAL_QUERY`. -/
theorem C4_total_general_fallback_witness :
    analyze_task_type "zzz" [] = TaskType.GENERAL_QUERY :=
  (C4_total_general_fallback "zzz" []).2.1 (by decide) (by decide) (by decide) (by decide)

/-- Claim C5: on any query with a Leave-family keyword, the Leave sub-rule
applies in order (`"history"`, then `"apply"`/`"book"`/`"request"`, then
the balance default), and the three concrete examples classify accordingly. -/
theorem C5_leave_subrule (q : String) (ctx : UserContext) :
    (anyKeyword leave_keywords (strLower q) = true →
      (pyIn "history" (strLower q) = true →
        analyze_task_type q ctx = TaskType.LEAVE_HISTORY) ∧
      (pyIn "history" (strLower q) = false →
       anyKeyword ["apply", "book", "request"] (strLower q) = true →
        analyze_task_type q ctx = TaskType.LEAVE_APPLICATION) ∧
      (pyIn "history" (strLower q) = false →
       anyKeyword ["apply", "book", "request"] (strLower q) = false →
        analyze_task_type q ctx = TaskType.LEAVE_BALANCE)) ∧
    analyze_task_type "check my leave history" [] = TaskType.LEAVE_HISTORY ∧
    analyze_task_type "apply for leave tomorrow" [] = TaskType.LEAVE_APPLICATION ∧
    analyze_task_type "what is my balance" [] = TaskType.LEAVE_BALANCE := by
  refine ⟨?_, by decide, by decide, by decide⟩
  intro h1
  refine ⟨?_, ?_, ?_⟩
  · intro h2; simp [analyze_task_type, h1, h2]
  · intro h2 h3; simp [analyze_task_type, h1, h2, h3]
  · intro h2 h3; simp [analyze_task_type, h1, h2, h3]

/-- Claim C5 witness: `"book leave"` has a Leave keyword, no `"history"`, and
contains `"book"`, so the sub-rule yields `LEAVE_APPLICATION`. -/
theorem C5_leave_subrule_witness :
    analyze_task_type "book leave" [] = TaskType.LEAVE_APPLICATION :=
  ((C5_leave_subrule "book leave" []).1 (by decide)).2.1 (by decide) (by decide)

/-- Claim C6: a role uppercasing to `"HR"` is always allowed with an empty
reason; a role uppercasing to `"EMPLOYEE"` is denied with the restriction
message exactly on the four restricted categories and allowed with an empty
reason on the five others. -/
theorem C6_role_rules (role : String) (t : TaskType) :
    (strUpper role = "HR" → check_authorization role t = (true, "")) ∧
    (strUpper role = "EMPLOYEE" →
      ((check_authorization role t = (false, restrictedMsg)) ↔
        (t = TaskType.EMPLOYEE_OVERVIEW ∨ t = TaskType.DEPARTMENT_STATS ∨
         t = TaskType.REPORTING ∨ t = TaskType.ANALYTICS)) ∧
      ((t = TaskType.LEAVE_BALANCE ∨ t = TaskType.LEAVE_APPLICATION ∨
        t = TaskType.LEAVE_HISTORY ∨ t = TaskType.EMPLOYEE_SEARCH ∨
        t = TaskType.GENERAL_QUERY) → check_authorization role t = (true, ""))) := by
  constructor
  · intro h
    unfold check_authorization
    rw [h]
    cases t <;> decide
  · intro h
    unfold check_authorization
    rw [h]
    cases t <;> exact (by decide)

/-- Claim C6 witness: the role `"hr"` uppercases to `"HR"` and is allowed on
`ANALYTICS`; the role `"Employee"` uppercases to `"EMPLOYEE"` and is denied
on `ANALYTICS` with the restriction message. -/
theorem C6_role_rules_witness :
    check_authorization "hr" TaskType.ANALYTICS = (true, "") ∧
    check_authorization "Employee" TaskType.ANALYTICS = (false, restrictedMsg) :=
  ⟨(C6_role_rules "hr" TaskType.ANALYTICS).1 (by decide),
   ((C6_role_rules "Employee" TaskType.ANALYTICS).2 (by decide)).1.mpr (by decide)⟩

/-- Claim C7: the category-to-handler table of `determine_target_agent`, plus
the two end-to-end routing scenarios. -/
theorem C7_dispatch_table :
    determine_target_agent TaskType.LEAVE_BALANCE = "leave_agent" ∧
    determine_target_agent TaskType.LEAVE_APPLICATION = "leave_agent" ∧
    determine_target_agent TaskType.LEAVE_HISTORY = "leave_agent" ∧
    determine_target_agent TaskType.EMPLOYEE_OVERVIEW = "reporting_agent" ∧
    determine_target_agent TaskType.DEPARTMENT_STATS = "reporting_agent" ∧
    determine_target_agent TaskType.REPORTING = "reporting_agent" ∧
    determine_target_agent TaskType.EMPLOYEE_SEARCH = "employee_agent" ∧
    determine_target_agent TaskType.GENERAL_QUERY = "employee_agent" ∧
    determine_target_agent TaskType.ANALYTICS = "analysis_agent" ∧
    route "check balance for E003" "HR" =
      ⟨TaskType.LEAVE_BALANCE, "leave_agent", true, ""⟩ ∧
    route "show analytics" "Employee" =
      ⟨TaskType.ANALYTICS, "analysis_agent", false, restrictedMsg⟩ := by
  decide

/-- Claim C8: whenever the composed routing decision is unauthorized, its
denial reason is a non-empty string, for every query and role. -/
theorem C8_denial_reason_nonempty (q role : String)
    (h : (route q role).authorized = false) :
    (route q role).denialReason ≠ "" := by
  have hgen : ∀ t : TaskType, (check_authorization role t).1 = false →
      (check_authorization role t).2 ≠ "" := by
    intro t hf
    unfold check_authorization at hf ⊢
    split_ifs at hf ⊢ <;> first
      | exact absurd hf (by decide)
      | decide
  exact hgen (analyze_task_type q []) h

/-- Claim C8 witness: `route "show analytics" "Employee"` is unauthorized and
its denial reason is non-empty. -/
theorem C8_denial_reason_nonempty_witness :
    (route "show analytics" "Employee").denialReason ≠ "" :=
  C8_denial_reason_nonempty "show analytics" "Employee" (by decide)

/-- Claim C9: `route` is a pure function of `(query, role)` — two calls on
identical inputs produce identical decisions, field by field. -/
theorem C9_route_deterministic (q role : String) :
    route q role = route q role ∧
    (route q role).category = (route q role).category ∧
    (route q role).targetHandler = (route q role).targetHandler ∧
    (route q role).authorized = (route q role).authorized ∧
    (route q role).denialReason = (route q role).denialReason :=
  ⟨rfl, rfl, rfl, rfl, rfl⟩

/-- Claim C10: classification never reads the caller's context — for any two
`user_context` values the assigned category is the same, a function of the
query text alone. -/
theorem C10_context_independent (q : String) (c1 c2 : UserContext) :
    analyze_task_type q c1 = analyze_task_type q c2 :=
  rfl

end HRRouting
